import Mathlib

/-!
Shallow embedding of the GNAT-LLVM C wrapper (llvm-interface/llvm_wrapper.cc):
the optimization pipeline orchestrator (LLVM_Optimize_Module), the TBAA access
tag builder (Create_TBAA_Access_Tag), the floating-point rendering helper
(Convert_FP_To_String), and the value-lifetime tracker (GNATCallbackVH /
Notify_On_Value_Delete), together with theorems checking the design
specification against this embedding.
-/

/-- Optimization level enumeration of the wrapped toolkit:
O0 (none), O1, O2, O3. -/
inductive OptimizationLevel where
  | O0
  | O1
  | O2
  | O3
deriving DecidableEq, Repr

/-- Derivation of the OptimizationLevel value from the CodeOptLevel argument
(llvm_wrapper.cc lines 595-599): a chain of conditionals mapping 1 to O1,
2 to O2, 3 to O3, and anything else to O0. -/
def deriveLevel (CodeOptLevel : Int) : OptimizationLevel :=
  if CodeOptLevel = 1 then OptimizationLevel.O1
  else if CodeOptLevel = 2 then OptimizationLevel.O2
  else if CodeOptLevel = 3 then OptimizationLevel.O3
  else OptimizationLevel.O0

/-- The pipeline tuning options populated by LLVM_Optimize_Module
(the five fields it assigns at lines 600-604). -/
structure PipelineTuningOptions where
  LoopUnrolling : Bool
  LoopInterleaving : Bool
  LoopVectorization : Bool
  SLPVectorization : Bool
  MergeFunctions : Bool
deriving DecidableEq, Repr

/-- The scalar configuration arguments of LLVM_Optimize_Module
(llvm_wrapper.cc lines 581-586), apart from the module, target machine and
plugin arguments which are modelled separately. -/
structure OptimizeConfig where
  CodeOptLevel : Int
  SizeOptLevel : Int
  NeedLoopInfo : Bool
  NoUnrollLoops : Bool
  NoLoopVectorization : Bool
  NoSLPVectorization : Bool
  MergeFunctions : Bool
  PrepareForThinLTO : Bool
  PrepareForLTO : Bool
  RerollLoops : Bool
deriving DecidableEq, Repr

/-- The PTO assignments of LLVM_Optimize_Module (lines 600-604):
LoopUnrolling and LoopInterleaving are both the negation of NoUnrollLoops,
LoopVectorization the negation of NoLoopVectorization, SLPVectorization the
negation of NoSLPVectorization, MergeFunctions copied from the flag. -/
def makePipelineTuningOptions (cfg : OptimizeConfig) : PipelineTuningOptions :=
  { LoopUnrolling := !cfg.NoUnrollLoops
    LoopInterleaving := !cfg.NoUnrollLoops
    LoopVectorization := !cfg.NoLoopVectorization
    SLPVectorization := !cfg.NoSLPVectorization
    MergeFunctions := cfg.MergeFunctions }

/-- The module-level pass pipeline chosen by the four-way conditional of
LLVM_Optimize_Module (lines 646-659), identified by which PassBuilder
entry point built it and with which arguments. -/
inductive ModulePipeline where
  | o0Default (Level : OptimizationLevel) (LTOPreLink : Bool)
  | thinLTOPreLinkDefault (Level : OptimizationLevel)
  | ltoPreLinkDefault (Level : OptimizationLevel)
  | perModuleDefault (Level : OptimizationLevel)
deriving DecidableEq, Repr

/-- One entry of the module pass manager assembled by LLVM_Optimize_Module:
either the pipeline built by a PassBuilder entry point, or one of the two
extra passes added with MPM.addPass (a loop-rotation adaptor, respectively
the OurLoopPass adaptor). -/
inductive ModulePass where
  | pipeline (p : ModulePipeline)
  | loopRotate
  | ourLoopPass
deriving DecidableEq, Repr

/-- The four-way first-match conditional of lines 646-659: level 0 builds the
O0 default pipeline with (PrepareForLTO || PrepareForThinLTO) as its
LTOPreLink argument; otherwise PrepareForThinLTO selects the thin-LTO
pre-link pipeline; otherwise PrepareForLTO selects the LTO pre-link
pipeline; otherwise the per-module default pipeline is built. -/
def selectPipeline (CodeOptLevel : Int) (PrepareForThinLTO PrepareForLTO : Bool) :
    ModulePipeline :=
  let Level := deriveLevel CodeOptLevel
  if CodeOptLevel = 0 then
    ModulePipeline.o0Default Level (PrepareForLTO || PrepareForThinLTO)
  else if PrepareForThinLTO then ModulePipeline.thinLTOPreLinkDefault Level
  else if PrepareForLTO then ModulePipeline.ltoPreLinkDefault Level
  else ModulePipeline.perModuleDefault Level

/-- The full contents of the module pass manager assembled at lines 645-663:
the selected pipeline; then, inside the level-0 branch only, a loop-rotation
pass when NeedLoopInfo is set; then, in every branch, the OurLoopPass adaptor
when NeedLoopInfo is set. -/
def buildMPM (cfg : OptimizeConfig) : List ModulePass :=
  (ModulePass.pipeline
      (selectPipeline cfg.CodeOptLevel cfg.PrepareForThinLTO cfg.PrepareForLTO)
    :: (if cfg.CodeOptLevel = 0 && cfg.NeedLoopInfo then [ModulePass.loopRotate] else []))
  ++ (if cfg.NeedLoopInfo then [ModulePass.ourLoopPass] else [])

/-- The externally visible steps LLVM_Optimize_Module performs, in order:
loading the plugin, registering its callbacks, the block of analysis
registrations (lines 630-643), building the module pipeline and running it. -/
inductive OptAction where
  | loadPlugin (name : String)
  | registerPluginCallbacks
  | registerDefaultAAPipeline
  | registerTargetLibraryAnalysis
  | registerModuleAnalyses
  | registerCGSCCAnalyses
  | registerFunctionAnalyses
  | registerLoopAnalyses
  | crossRegisterProxies
  | buildModulePipeline (mpm : List ModulePass)
  | runModulePipeline (mpm : List ModulePass)
deriving DecidableEq, Repr

/-- Whether an action is the single pipeline execution step (MPM.run). -/
def OptAction.isRunModulePipeline : OptAction → Bool
  | OptAction.runModulePipeline _ => true
  | _ => false

/-- Whether an action is an analysis registration, a pipeline construction
or a pipeline execution (everything after the plugin-loading block). -/
def OptAction.isRegisterBuildOrRun : OptAction → Bool
  | OptAction.loadPlugin _ => false
  | OptAction.registerPluginCallbacks => false
  | _ => true

/-- The analysis registration block of lines 630-643, performed in this
order after plugin handling. -/
def analysisSetup : List OptAction :=
  [OptAction.registerDefaultAAPipeline, OptAction.registerTargetLibraryAnalysis,
   OptAction.registerModuleAnalyses, OptAction.registerCGSCCAnalyses,
   OptAction.registerFunctionAnalyses, OptAction.registerLoopAnalyses,
   OptAction.crossRegisterProxies]

/-- Result of one LLVM_Optimize_Module invocation: the LLVMBool return value
(1 on plugin failure, 0 on success), the string stored through the
ErrorMessage out-parameter if any, the tuning options it computed, and the
trace of the steps it executed. -/
structure OptimizeOutcome where
  status : Nat
  ErrorMessage : Option String
  pto : PipelineTuningOptions
  trace : List OptAction
deriving DecidableEq, Repr

/-- Embedding of LLVM_Optimize_Module (lines 579-666). The outcome of
PassPlugin::Load, which is outside this translation unit, is abstracted as
the pluginLoad argument: some message models a load failure carrying that
error message, none models success. wantErrorMessage models whether the
caller passed a non-null ErrorMessage out-pointer (line 620 guards the
store on ErrorMessage being non-null). On load failure the function stores
the message and returns 1 having done nothing beyond the load attempt;
otherwise it registers the analyses, assembles the module pass manager and
runs it once, returning 0. -/
def LLVM_Optimize_Module (pluginLoad : String → Option String)
    (cfg : OptimizeConfig) (PassPluginName : Option String)
    (wantErrorMessage : Bool) : OptimizeOutcome :=
  let PTO := makePipelineTuningOptions cfg
  match PassPluginName with
  | none =>
      let mpm := buildMPM cfg
      { status := 0
        ErrorMessage := none
        pto := PTO
        trace := analysisSetup
          ++ [OptAction.buildModulePipeline mpm, OptAction.runModulePipeline mpm] }
  | some name =>
      match pluginLoad name with
      | some errMsg =>
          { status := 1
            ErrorMessage := if wantErrorMessage then some errMsg else none
            pto := PTO
            trace := [OptAction.loadPlugin name] }
      | none =>
          let mpm := buildMPM cfg
          { status := 0
            ErrorMessage := none
            pto := PTO
            trace := [OptAction.loadPlugin name, OptAction.registerPluginCallbacks]
              ++ analysisSetup
              ++ [OptAction.buildModulePipeline mpm, OptAction.runModulePipeline mpm] }

/-- Floating-point semantics of an APFloat value, as distinguished by
Convert_FP_To_String via getSemantics (llvm_wrapper.cc lines 701-702):
IEEE single, IEEE double, or one of the remaining semantics the wrapped
toolkit provides. -/
inductive FltSemantics where
  | IEEEhalf
  | BFloat
  | IEEEsingle
  | IEEEdouble
  | x87DoubleExtended
  | IEEEquad
  | PPCDoubleDouble
deriving DecidableEq, Repr

/-- The facets of a ConstantFP value that Convert_FP_To_String consults:
its semantics, the isInfinity and isNaN predicates, the minimal decimal
rendering produced by APFloat::toString with precision 0 (an algorithm of
the wrapped toolkit, carried here as data), and the bit pattern returned by
bitcastToAPInt().getZExtValue(). -/
structure APFloatVal where
  sem : FltSemantics
  isInfinity : Bool
  isNaN : Bool
  toStringMinimal : String
  bitPattern : Nat
deriving DecidableEq, Repr

/-- Lowercase hexadecimal rendering of an unsigned value, as produced by
utohexstr with Lower set (digits 0-9 then a-f, no leading zeros, the value
zero printed as the single digit 0). -/
def utohexstr (n : Nat) : String :=
  String.mk (Nat.toDigits 16 n)

/-- Embedding of Convert_FP_To_String (lines 695-727), returning the string
written into Buf. For IEEE single or double semantics: when the value is
neither an infinity nor a NaN, the minimal decimal rendering is used, with
the suffix f appended for single precision; otherwise the bit pattern is
printed as 0x..p0 in lowercase hexadecimal. Every other semantics yields
the fixed unsupported-type marker. -/
def Convert_FP_To_String (v : APFloatVal) : String :=
  if v.sem = FltSemantics.IEEEsingle ∨ v.sem = FltSemantics.IEEEdouble then
    if !v.isInfinity && !v.isNaN then
      v.toStringMinimal
        ++ (if v.sem = FltSemantics.IEEEsingle then "f" else "")
    else
      "0x" ++ utohexstr v.bitPattern ++ "p0"
  else
    "<unsupported floating point type>"

/-- The int return value of Convert_FP_To_String: the length of the string
written into Buf in every branch (lines 713, 723, 726). -/
def Convert_FP_To_String_ret (v : APFloatVal) : Nat :=
  (Convert_FP_To_String v).length

/-- A TBAA access tag as assembled by MDBuilder::createTBAAAccessTag: the
base type node, the access type node, the offset, the size, and the final
boolean flag (named IsImmutable by the toolkit; the specification calls it
the may-alias-across-threads flag). Nodes are abstracted as opaque
identities. -/
structure TBAAAccessTag where
  BaseType : Nat
  AccessType : Nat
  Offset : Nat
  Size : Nat
  IsImmutable : Bool
deriving DecidableEq, Repr

/-- MDBuilder::createTBAAAccessTag of the wrapped toolkit, packaging its
five arguments into a tag. -/
def MDBuilder.createTBAAAccessTag (BaseType AccessType Offset Size : Nat)
    (IsImmutable : Bool) : TBAAAccessTag :=
  { BaseType := BaseType
    AccessType := AccessType
    Offset := Offset
    Size := Size
    IsImmutable := IsImmutable }

/-- Embedding of Create_TBAA_Access_Tag (lines 299-306): it forwards its
arguments to createTBAAAccessTag with the final flag hard-coded to false.
The MDHelper argument is an opaque builder identity, unused beyond
dispatch. -/
def Create_TBAA_Access_Tag (MDHelper : Nat) (BaseType AccessType : Nat)
    (offset size : Nat) : TBAAAccessTag :=
  MDBuilder.createTBAAAccessTag BaseType AccessType offset size false

/-- A GNATCallbackVH registration (lines 958-966): the tracked value
identity and the callback, as stored by the constructor at lines 975-978.
Value identities and callbacks are abstracted as opaque naturals. -/
structure GNATCallbackVH where
  val : Nat
  fn : Nat
deriving DecidableEq, Repr

/-- The two observable events inside GNATCallbackVH::deleted: releasing the
registration object itself (the delete-this statement), and calling the
stored callback on the stored value. -/
inductive VHEvent where
  | freeRegistration
  | invokeCallback (fn val : Nat)
deriving DecidableEq, Repr

/-- The body of GNATCallbackVH::deleted (lines 968-973) as the ordered list
of its statements: first delete this, then the call of this->fn on
this->val (reading both members out of the just-freed object). -/
def GNATCallbackVH.deletedTrace (cb : GNATCallbackVH) : List VHEvent :=
  [VHEvent.freeRegistration, VHEvent.invokeCallback cb.fn cb.val]

/-- State of the value-lifetime tracking mechanism: the list of live
(armed) registrations, and the log of callback invocations performed so
far, each recorded as the (fn, val) pair that was called. -/
structure TrackerState where
  regs : List GNATCallbackVH
  invocations : List (Nat × Nat)
deriving DecidableEq, Repr

/-- Embedding of Notify_On_Value_Delete (lines 980-985): constructing a new
GNATCallbackVH(V, Fn) arms a registration on the identity V; the CallbackVH
base-class constructor links it into the toolkit's handle list for V. -/
def Notify_On_Value_Delete (V Fn : Nat) (s : TrackerState) : TrackerState :=
  { s with regs := s.regs ++ [{ val := V, fn := Fn }] }

/-- Modelled from the spec: the deletion hook of the wrapped toolkit's
value-handle mechanism (the CallbackVH base class is not part of this
repository). Destroying the value with identity V calls deleted() exactly
once on every handle currently attached to V; each such GNATCallbackVH
performs the invocation recorded by its deleted() body and removes itself,
so it is no longer attached afterwards. Registrations on other identities
are untouched. -/
def destroyValue (V : Nat) (s : TrackerState) : TrackerState :=
  { regs := s.regs.filter (fun r => !(r.val == V))
    invocations := s.invocations
      ++ (s.regs.filter (fun r => r.val == V)).map (fun r => (r.fn, r.val)) }

/-- Loop facts that OurLoopPass::run reads (lines 566-577): preheader,
header, latch, latch comparison instruction (each an optional block or
instruction identity), and the loop-simplify-form predicate. -/
structure LoopView where
  preheader : Option Nat
  header : Option Nat
  latch : Option Nat
  latchCmp : Option Nat
  isSimplifyForm : Bool
deriving DecidableEq, Repr

/-- Analyses preserved by a pass: either all of them, or some smaller set
(abstracted). -/
inductive PreservedAnalyses where
  | all
  | some
deriving DecidableEq, Repr

/-- Embedding of OurLoopPass::run (lines 566-577): it reads the loop facts
into locals, performs no change to the loop, and returns
PreservedAnalyses::all. The returned pair carries the (unchanged) loop so
the absence of transformation is part of the statement. -/
def OurLoopPass.run (L : LoopView) : PreservedAnalyses × LoopView :=
  (PreservedAnalyses.all, L)

/-- A concrete configuration with the given optimization level and LTO
flags, all other fields at their least element, used to instantiate the
theorems below on concrete inputs. -/
def cfgAt (lvl : Int) (thin lto : Bool) : OptimizeConfig :=
  { CodeOptLevel := lvl
    SizeOptLevel := 0
    NeedLoopInfo := false
    NoUnrollLoops := false
    NoLoopVectorization := false
    NoSLPVectorization := false
    MergeFunctions := false
    PrepareForThinLTO := thin
    PrepareForLTO := lto
    RerollLoops := false }

/-- C6: the tuning options are populated directly from the flags: loop
unrolling and loop interleaving are both the negation of the no-unroll
flag, hence always equal to each other; loop and SLP vectorization follow
their own disable flags independently; function merging equals its flag. -/
theorem C6_tuning_options (cfg : OptimizeConfig) :
    (makePipelineTuningOptions cfg).LoopUnrolling = !cfg.NoUnrollLoops ∧
    (makePipelineTuningOptions cfg).LoopInterleaving = !cfg.NoUnrollLoops ∧
    (makePipelineTuningOptions cfg).LoopUnrolling
      = (makePipelineTuningOptions cfg).LoopInterleaving ∧
    (makePipelineTuningOptions cfg).LoopVectorization
      = !cfg.NoLoopVectorization ∧
    (makePipelineTuningOptions cfg).SLPVectorization
      = !cfg.NoSLPVectorization ∧
    (makePipelineTuningOptions cfg).MergeFunctions = cfg.MergeFunctions :=
  ⟨rfl, rfl, rfl, rfl, rfl, rfl⟩

/-- C9: every access tag produced by Create_TBAA_Access_Tag has its final
boolean flag cleared, for all inputs; no input produces a tag with the flag
set. -/
theorem C9_access_tag_flag_always_cleared :
    (∀ MDHelper BaseType AccessType offset size : Nat,
      (Create_TBAA_Access_Tag MDHelper BaseType AccessType offset size).IsImmutable
        = false) ∧
    ¬ ∃ MDHelper BaseType AccessType offset size : Nat,
        (Create_TBAA_Access_Tag MDHelper BaseType AccessType offset size).IsImmutable
          = true := by
  constructor
  · intro _ _ _ _ _
    rfl
  · rintro ⟨_, _, _, _, _, h⟩
    simp [Create_TBAA_Access_Tag, MDBuilder.createTBAAAccessTag] at h

/-- C3: the module pipeline heads the assembled pass sequence, and it is
chosen by first-match-wins precedence: level 0 selects the O0 default
pipeline; otherwise thin-LTO prepare selects the thin-LTO pre-link
pipeline irrespective of the full-LTO flag; otherwise full-LTO prepare
selects the LTO pre-link pipeline; otherwise the per-module default
pipeline is selected. -/
theorem C3_pipeline_selection (cfg : OptimizeConfig) :
    (buildMPM cfg).head? = some (ModulePass.pipeline
      (selectPipeline cfg.CodeOptLevel cfg.PrepareForThinLTO cfg.PrepareForLTO)) ∧
    (cfg.CodeOptLevel = 0 →
      selectPipeline cfg.CodeOptLevel cfg.PrepareForThinLTO cfg.PrepareForLTO
        = ModulePipeline.o0Default (deriveLevel cfg.CodeOptLevel)
            (cfg.PrepareForLTO || cfg.PrepareForThinLTO)) ∧
    (cfg.CodeOptLevel ≠ 0 → cfg.PrepareForThinLTO = true →
      selectPipeline cfg.CodeOptLevel cfg.PrepareForThinLTO cfg.PrepareForLTO
        = ModulePipeline.thinLTOPreLinkDefault (deriveLevel cfg.CodeOptLevel)) ∧
    (cfg.CodeOptLevel ≠ 0 → cfg.PrepareForThinLTO = false →
      cfg.PrepareForLTO = true →
      selectPipeline cfg.CodeOptLevel cfg.PrepareForThinLTO cfg.PrepareForLTO
        = ModulePipeline.ltoPreLinkDefault (deriveLevel cfg.CodeOptLevel)) ∧
    (cfg.CodeOptLevel ≠ 0 → cfg.PrepareForThinLTO = false →
      cfg.PrepareForLTO = false →
      selectPipeline cfg.CodeOptLevel cfg.PrepareForThinLTO cfg.PrepareForLTO
        = ModulePipeline.perModuleDefault (deriveLevel cfg.CodeOptLevel)) := by
  refine ⟨by simp [buildMPM], ?_, ?_, ?_, ?_⟩
  · intro h0
    simp [selectPipeline, h0]
  · intro h0 hthin
    simp [selectPipeline, h0, hthin]
  · intro h0 hthin hlto
    simp [selectPipeline, h0, hthin, hlto]
  · intro h0 hthin hlto
    simp [selectPipeline, h0, hthin, hlto]

/-- C3 witness: the theorem instantiated on concrete configurations
exercising all four cases, including that at level 2 with thin-LTO prepare
the thin-LTO pre-link pipeline is chosen whatever the full-LTO flag is. -/
theorem C3_pipeline_selection_witness :
    selectPipeline (cfgAt 0 false false).CodeOptLevel
        (cfgAt 0 false false).PrepareForThinLTO (cfgAt 0 false false).PrepareForLTO
      = ModulePipeline.o0Default (deriveLevel 0) false ∧
    selectPipeline (cfgAt 2 true true).CodeOptLevel
        (cfgAt 2 true true).PrepareForThinLTO (cfgAt 2 true true).PrepareForLTO
      = ModulePipeline.thinLTOPreLinkDefault (deriveLevel 2) ∧
    selectPipeline (cfgAt 2 true false).CodeOptLevel
        (cfgAt 2 true false).PrepareForThinLTO (cfgAt 2 true false).PrepareForLTO
      = ModulePipeline.thinLTOPreLinkDefault (deriveLevel 2) ∧
    selectPipeline (cfgAt 2 false true).CodeOptLevel
        (cfgAt 2 false true).PrepareForThinLTO (cfgAt 2 false true).PrepareForLTO
      = ModulePipeline.ltoPreLinkDefault (deriveLevel 2) ∧
    selectPipeline (cfgAt 3 false false).CodeOptLevel
        (cfgAt 3 false false).PrepareForThinLTO (cfgAt 3 false false).PrepareForLTO
      = ModulePipeline.perModuleDefault (deriveLevel 3) := by
  refine ⟨?_, ?_, ?_, ?_, ?_⟩
  · exact (C3_pipeline_selection (cfgAt 0 false false)).2.1 rfl
  · exact (C3_pipeline_selection (cfgAt 2 true true)).2.2.1 (by decide) rfl
  · exact (C3_pipeline_selection (cfgAt 2 true false)).2.2.1 (by decide) rfl
  · exact (C3_pipeline_selection (cfgAt 2 false true)).2.2.2.1 (by decide) rfl rfl
  · exact (C3_pipeline_selection (cfgAt 3 false false)).2.2.2.2 (by decide) rfl rfl

/-- C5: the optimization-level member is derived strictly from the
optimization-level input, mapping 1, 2, 3 to O1, O2, O3 and everything
else to O0; two configurations differing only in size-level derive the
same member and assemble the same pass sequence. -/
theorem C5_level_mapping (cfg : OptimizeConfig) (s1 s2 n : Int) :
    deriveLevel 1 = OptimizationLevel.O1 ∧
    deriveLevel 2 = OptimizationLevel.O2 ∧
    deriveLevel 3 = OptimizationLevel.O3 ∧
    (n ≠ 1 → n ≠ 2 → n ≠ 3 → deriveLevel n = OptimizationLevel.O0) ∧
    deriveLevel { cfg with SizeOptLevel := s1 }.CodeOptLevel
      = deriveLevel { cfg with SizeOptLevel := s2 }.CodeOptLevel ∧
    buildMPM { cfg with SizeOptLevel := s1 }
      = buildMPM { cfg with SizeOptLevel := s2 } := by
  refine ⟨by decide, by decide, by decide, ?_, rfl, rfl⟩
  intro h1 h2 h3
  simp [deriveLevel, h1, h2, h3]

/-- C5 witness: the theorem instantiated on a concrete configuration, a
level outside one to three, and two different size levels. -/
theorem C5_level_mapping_witness :
    deriveLevel 1 = OptimizationLevel.O1 ∧
    deriveLevel 7 = OptimizationLevel.O0 ∧
    buildMPM { cfgAt 2 false false with SizeOptLevel := 1 }
      = buildMPM { cfgAt 2 false false with SizeOptLevel := 2 } := by
  have h := C5_level_mapping (cfgAt 2 false false) 1 2 7
  exact ⟨h.1, h.2.2.2.1 (by decide) (by decide) (by decide), h.2.2.2.2.2⟩

/-- C10: at level 0 the selected pipeline is the O0 default pipeline built
with the disjunction of the full-LTO-prepare and thin-LTO-prepare flags as
its link-time-optimization argument, so either flag set makes that
argument true even at level 0. -/
theorem C10_o0_pipeline_lto_argument (cfg : OptimizeConfig)
    (h : cfg.CodeOptLevel = 0) :
    selectPipeline cfg.CodeOptLevel cfg.PrepareForThinLTO cfg.PrepareForLTO
      = ModulePipeline.o0Default (deriveLevel cfg.CodeOptLevel)
          (cfg.PrepareForLTO || cfg.PrepareForThinLTO) ∧
    (buildMPM cfg).head? = some (ModulePass.pipeline
      (ModulePipeline.o0Default (deriveLevel cfg.CodeOptLevel)
        (cfg.PrepareForLTO || cfg.PrepareForThinLTO))) ∧
    ((cfg.PrepareForLTO || cfg.PrepareForThinLTO) = true
      ↔ (cfg.PrepareForLTO = true ∨ cfg.PrepareForThinLTO = true)) := by
  refine ⟨by simp [selectPipeline, h], ?_, by simp⟩
  simp [buildMPM, selectPipeline, h]

/-- C10 witness: at level 0 with only the thin-LTO flag set, the O0
pipeline is built with a true link-time-optimization argument. -/
theorem C10_o0_pipeline_lto_argument_witness :
    selectPipeline (cfgAt 0 true false).CodeOptLevel
        (cfgAt 0 true false).PrepareForThinLTO (cfgAt 0 true false).PrepareForLTO
      = ModulePipeline.o0Default (deriveLevel 0) true := by
  have h := C10_o0_pipeline_lto_argument (cfgAt 0 true false) rfl
  simpa using h.1

/-- C7: when loop information is requested the pass sequence is the selected
pipeline, then a loop-rotation pass exactly when the level is 0, then the
observational loop pass; hence the loop pass is always last, loop rotation
occurs in the sequence exactly at level 0, and OurLoopPass itself preserves
all analyses and leaves the loop unchanged. -/
theorem C7_loop_info_passes (cfg : OptimizeConfig) (h : cfg.NeedLoopInfo = true) :
    buildMPM cfg
      = ModulePass.pipeline
          (selectPipeline cfg.CodeOptLevel cfg.PrepareForThinLTO cfg.PrepareForLTO)
        :: ((if cfg.CodeOptLevel = 0 then [ModulePass.loopRotate] else [])
            ++ [ModulePass.ourLoopPass]) ∧
    (buildMPM cfg).getLast? = some ModulePass.ourLoopPass ∧
    (ModulePass.loopRotate ∈ buildMPM cfg ↔ cfg.CodeOptLevel = 0) ∧
    (∀ L : LoopView, OurLoopPass.run L = (PreservedAnalyses.all, L)) := by
  by_cases h0 : cfg.CodeOptLevel = 0
  · refine ⟨by simp [buildMPM, h, h0], ?_, ?_, fun L => rfl⟩
    · simp [buildMPM, h, h0]
    · simp [buildMPM, h, h0]
  · refine ⟨by simp [buildMPM, h, h0], ?_, ?_, fun L => rfl⟩
    · simp [buildMPM, h, h0]
    · simp [buildMPM, h, h0]

/-- C7 witness: the theorem instantiated at a level-0 and a level-2
configuration with loop information requested. -/
theorem C7_loop_info_passes_witness :
    buildMPM { cfgAt 0 false false with NeedLoopInfo := true }
      = [ModulePass.pipeline (ModulePipeline.o0Default OptimizationLevel.O0 false),
         ModulePass.loopRotate, ModulePass.ourLoopPass] ∧
    buildMPM { cfgAt 2 false false with NeedLoopInfo := true }
      = [ModulePass.pipeline (ModulePipeline.perModuleDefault OptimizationLevel.O2),
         ModulePass.ourLoopPass] := by
  have h0 := (C7_loop_info_passes { cfgAt 0 false false with NeedLoopInfo := true } rfl).1
  have h2 := (C7_loop_info_passes { cfgAt 2 false false with NeedLoopInfo := true } rfl).1
  constructor
  · rw [h0]
    rfl
  · rw [h2]
    rfl

/-- C4: if plugin loading fails the run returns status 1, stores the error
message when an out-pointer was supplied, and performs no analysis
registration, pipeline construction or pipeline execution; with no plugin,
or with a plugin that loads, the run returns status 0 and executes the
assembled pass sequence exactly once. -/
theorem C4_plugin_failure_aborts_run (pluginLoad : String → Option String)
    (cfg : OptimizeConfig) (name msg : String) (w : Bool) :
    (pluginLoad name = some msg →
      (LLVM_Optimize_Module pluginLoad cfg (some name) w).status = 1 ∧
      (LLVM_Optimize_Module pluginLoad cfg (some name) true).ErrorMessage
        = some msg ∧
      (LLVM_Optimize_Module pluginLoad cfg (some name) w).trace.all
        (fun a => !a.isRegisterBuildOrRun) = true) ∧
    ((LLVM_Optimize_Module pluginLoad cfg none w).status = 0 ∧
      (LLVM_Optimize_Module pluginLoad cfg none w).trace.filter
          OptAction.isRunModulePipeline
        = [OptAction.runModulePipeline (buildMPM cfg)]) ∧
    (pluginLoad name = none →
      (LLVM_Optimize_Module pluginLoad cfg (some name) w).status = 0 ∧
      (LLVM_Optimize_Module pluginLoad cfg (some name) w).trace.filter
          OptAction.isRunModulePipeline
        = [OptAction.runModulePipeline (buildMPM cfg)]) := by
  refine ⟨?_, ?_, ?_⟩
  · intro hload
    refine ⟨?_, ?_, ?_⟩
    · simp [LLVM_Optimize_Module, hload]
    · simp [LLVM_Optimize_Module, hload]
    · simp [LLVM_Optimize_Module, hload, OptAction.isRegisterBuildOrRun]
  · constructor
    · simp [LLVM_Optimize_Module]
    · simp [LLVM_Optimize_Module, analysisSetup, OptAction.isRunModulePipeline,
        List.filter]
  · intro hload
    constructor
    · simp [LLVM_Optimize_Module, hload]
    · simp [LLVM_Optimize_Module, hload, analysisSetup,
        OptAction.isRunModulePipeline, List.filter]

/-- C4 witness: the theorem instantiated with a loader that always fails
with a fixed message and with a loader that always succeeds. -/
theorem C4_plugin_failure_aborts_run_witness :
    ((LLVM_Optimize_Module (fun _ => some "cannot load plugin")
        (cfgAt 2 false false) (some "p.so") true).status = 1 ∧
      (LLVM_Optimize_Module (fun _ => some "cannot load plugin")
        (cfgAt 2 false false) (some "p.so") true).ErrorMessage
        = some "cannot load plugin" ∧
      (LLVM_Optimize_Module (fun _ => some "cannot load plugin")
        (cfgAt 2 false false) (some "p.so") true).trace.all
        (fun a => !a.isRegisterBuildOrRun) = true) ∧
    ((LLVM_Optimize_Module (fun _ => none) (cfgAt 2 false false)
        (some "p.so") true).status = 0 ∧
      (LLVM_Optimize_Module (fun _ => none) (cfgAt 2 false false)
        (some "p.so") true).trace.filter OptAction.isRunModulePipeline
        = [OptAction.runModulePipeline (buildMPM (cfgAt 2 false false))]) := by
  have hfail := C4_plugin_failure_aborts_run (fun _ => some "cannot load plugin")
    (cfgAt 2 false false) "p.so" "cannot load plugin" true
  have hok := C4_plugin_failure_aborts_run (fun _ => none)
    (cfgAt 2 false false) "p.so" "cannot load plugin" true
  exact ⟨hfail.1 rfl, hok.2.2 rfl⟩

/-- C8: for a single- or double-precision value, a finite value renders as
the minimal decimal form with an f suffix appended exactly for single
precision, while an infinity or NaN renders as the hexadecimal bit-pattern
form; every other precision renders as the fixed unsupported marker,
independently of the value. -/
theorem C8_fp_to_text (v w : APFloatVal) :
    ((v.sem = FltSemantics.IEEEsingle ∨ v.sem = FltSemantics.IEEEdouble) →
      v.isInfinity = false → v.isNaN = false →
      Convert_FP_To_String v
        = v.toStringMinimal
            ++ (if v.sem = FltSemantics.IEEEsingle then "f" else "")) ∧
    ((v.sem = FltSemantics.IEEEsingle ∨ v.sem = FltSemantics.IEEEdouble) →
      (v.isInfinity = true ∨ v.isNaN = true) →
      Convert_FP_To_String v = "0x" ++ utohexstr v.bitPattern ++ "p0") ∧
    (v.sem ≠ FltSemantics.IEEEsingle → v.sem ≠ FltSemantics.IEEEdouble →
      Convert_FP_To_String v = "<unsupported floating point type>" ∧
      (w.sem = v.sem → Convert_FP_To_String w = Convert_FP_To_String v)) := by
  refine ⟨?_, ?_, ?_⟩
  · intro hsem hinf hnan
    rw [Convert_FP_To_String, if_pos hsem]
    simp [hinf, hnan]
  · intro hsem hspec
    rw [Convert_FP_To_String, if_pos hsem]
    rcases hspec with h | h <;> simp [h]
  · intro hs hd
    have hv : ¬(v.sem = FltSemantics.IEEEsingle ∨ v.sem = FltSemantics.IEEEdouble) := by
      rintro (h | h)
      · exact hs h
      · exact hd h
    refine ⟨by rw [Convert_FP_To_String, if_neg hv], ?_⟩
    intro hws
    have hw : ¬(w.sem = FltSemantics.IEEEsingle ∨ w.sem = FltSemantics.IEEEdouble) := by
      rw [hws]
      exact hv
    rw [Convert_FP_To_String, if_neg hw]
    rw [Convert_FP_To_String, if_neg hv]

/-- C8 witness: the theorem instantiated on a finite single-precision
value, an infinite double-precision value, and two distinct
extended-precision values. -/
theorem C8_fp_to_text_witness :
    Convert_FP_To_String
        { sem := FltSemantics.IEEEsingle, isInfinity := false, isNaN := false,
          toStringMinimal := "1.5", bitPattern := 1069547520 }
      = "1.5" ++ (if FltSemantics.IEEEsingle = FltSemantics.IEEEsingle
          then "f" else "") ∧
    Convert_FP_To_String
        { sem := FltSemantics.IEEEdouble, isInfinity := true, isNaN := false,
          toStringMinimal := "", bitPattern := 255 }
      = "0x" ++ utohexstr 255 ++ "p0" ∧
    Convert_FP_To_String
        { sem := FltSemantics.x87DoubleExtended, isInfinity := false,
          isNaN := false, toStringMinimal := "2.5", bitPattern := 3 }
      = "<unsupported floating point type>" ∧
    Convert_FP_To_String
        { sem := FltSemantics.x87DoubleExtended, isInfinity := true,
          isNaN := false, toStringMinimal := "9", bitPattern := 77 }
      = Convert_FP_To_String
        { sem := FltSemantics.x87DoubleExtended, isInfinity := false,
          isNaN := false, toStringMinimal := "2.5", bitPattern := 3 } := by
  have h1 := (C8_fp_to_text
    { sem := FltSemantics.IEEEsingle, isInfinity := false, isNaN := false,
      toStringMinimal := "1.5", bitPattern := 1069547520 }
    { sem := FltSemantics.IEEEsingle, isInfinity := false, isNaN := false,
      toStringMinimal := "1.5", bitPattern := 1069547520 }).1
    (Or.inl rfl) rfl rfl
  have h2 := (C8_fp_to_text
    { sem := FltSemantics.IEEEdouble, isInfinity := true, isNaN := false,
      toStringMinimal := "", bitPattern := 255 }
    { sem := FltSemantics.IEEEdouble, isInfinity := true, isNaN := false,
      toStringMinimal := "", bitPattern := 255 }).2.1
    (Or.inr rfl) (Or.inl rfl)
  have h3 := (C8_fp_to_text
    { sem := FltSemantics.x87DoubleExtended, isInfinity := false,
      isNaN := false, toStringMinimal := "2.5", bitPattern := 3 }
    { sem := FltSemantics.x87DoubleExtended, isInfinity := true,
      isNaN := false, toStringMinimal := "9", bitPattern := 77 }).2.2
    (by decide) (by decide)
  exact ⟨h1, h2, h3.1, h3.2 rfl⟩

/-- C1: evaluated on a concrete registration, the body of
GNATCallbackVH::deleted releases the registration object (delete this)
strictly before it invokes the callback, so the callback invocation does
not precede the discarding of the registration as the specification
states; the call even reads the fn and val members out of the already
freed object. -/
theorem C1_deleted_frees_registration_before_callback :
    GNATCallbackVH.deletedTrace { val := 100, fn := 5 }
      = [VHEvent.freeRegistration, VHEvent.invokeCallback 5 100] ∧
    List.indexOf VHEvent.freeRegistration
        (GNATCallbackVH.deletedTrace { val := 100, fn := 5 })
      < List.indexOf (VHEvent.invokeCallback 5 100)
        (GNATCallbackVH.deletedTrace { val := 100, fn := 5 }) := by
  constructor
  · rfl
  · decide

/-- C2: arming a registration on a fresh value identity and then
destroying that value invokes the callback exactly once with the original
identity, leaves every other registration in place, and a second
destruction-equivalent event fires nothing further: the registration is
gone after firing. -/
theorem C2_registration_fires_exactly_once (s : TrackerState) (V Fn : Nat)
    (hfresh : ∀ r ∈ s.regs, r.val ≠ V) :
    (destroyValue V (Notify_On_Value_Delete V Fn s)).invocations
      = s.invocations ++ [(Fn, V)] ∧
    (destroyValue V (Notify_On_Value_Delete V Fn s)).regs = s.regs ∧
    (destroyValue V (destroyValue V (Notify_On_Value_Delete V Fn s))).invocations
      = (destroyValue V (Notify_On_Value_Delete V Fn s)).invocations ∧
    (destroyValue V (destroyValue V (Notify_On_Value_Delete V Fn s))).regs
      = (destroyValue V (Notify_On_Value_Delete V Fn s)).regs := by
  have hkeep : s.regs.filter (fun r => r.val == V) = [] := by
    rw [List.filter_eq_nil_iff]
    intro r hr
    simpa using hfresh r hr
  have hdrop : s.regs.filter (fun r => !(r.val == V)) = s.regs := by
    rw [List.filter_eq_self]
    intro r hr
    simpa using hfresh r hr
  have h1 : (destroyValue V (Notify_On_Value_Delete V Fn s)).invocations
      = s.invocations ++ [(Fn, V)] := by
    simp [destroyValue, Notify_On_Value_Delete, List.filter_append, hkeep]
  have h2 : (destroyValue V (Notify_On_Value_Delete V Fn s)).regs = s.regs := by
    simp [destroyValue, Notify_On_Value_Delete, List.filter_append, hdrop]
  refine ⟨h1, h2, ?_, ?_⟩
  · simp [destroyValue, h2, hkeep]
  · simp [destroyValue, h2, hdrop]

/-- C2 witness: the theorem instantiated on a tracker holding one other
registration, tracking identity 3 with callback 5 and destroying 3. -/
theorem C2_registration_fires_exactly_once_witness :
    (destroyValue 3 (Notify_On_Value_Delete 3 5
        { regs := [{ val := 7, fn := 9 }], invocations := [] })).invocations
      = [(5, 3)] ∧
    (destroyValue 3 (Notify_On_Value_Delete 3 5
        { regs := [{ val := 7, fn := 9 }], invocations := [] })).regs
      = [{ val := 7, fn := 9 }] ∧
    (destroyValue 3 (destroyValue 3 (Notify_On_Value_Delete 3 5
        { regs := [{ val := 7, fn := 9 }], invocations := [] }))).invocations
      = (destroyValue 3 (Notify_On_Value_Delete 3 5
        { regs := [{ val := 7, fn := 9 }], invocations := [] })).invocations := by
  have h := C2_registration_fires_exactly_once
    { regs := [{ val := 7, fn := 9 }], invocations := [] } 3 5 (by decide)
  exact ⟨h.1, h.2.1, h.2.2.1⟩
